import Mathlib

/-!
Shallow embedding of `src/client/pseudo.ts` (`PseudoTransport`), the
in-process bridge connecting an MCP client to an `McpServer` inside one
process.

Modelling conventions:
- JavaScript's single event queue with `setTimeout(cb, 0)` is an explicit
  FIFO list of `DeferredTask`s stored in the state; running a task may
  enqueue further tasks.
- Handlers that may throw are semantic functions: the server-side message
  handler maps a message to the list of messages it sends through the
  proxy plus an optional thrown value (`ServerHandlerRun`); the
  client-side message handler maps a message to an optional thrown value.
  The error handler and the close handler are observation-only: the state
  records only whether each slot is set, and their invocation is recorded
  as an event in the trace.
- Promise outcomes of `send` are tracked via promise ids settled in a
  `settled` association list.
- A thrown JavaScript value is either an `Error` instance (carrying its
  message) or a non-`Error` value carrying its `String(...)` conversion.
-/

namespace PseudoMCP

/-- A JavaScript `Error` object, identified by its message. -/
structure JsError where
  message : String
deriving DecidableEq, Repr

/-- A value thrown by a handler: an `Error` instance, or any other value
(carrying its `String(...)` conversion). -/
inductive Thrown where
  | errObj (e : JsError)
  | nonError (s : String)
deriving DecidableEq, Repr

/-- `error instanceof Error ? error : new Error(String(error))`
(pseudo.ts lines 85 and 158). -/
def normalizeError : Thrown → JsError
  | .errObj e => e
  | .nonError s => ⟨s⟩

/-- `error instanceof Error ? error : new Error("Failed to connect internal McpServer")`
(pseudo.ts line 107, the distinct normalization used on the start path). -/
def connectErrNormalize : Thrown → JsError
  | .errObj e => e
  | .nonError _ => ⟨"Failed to connect internal McpServer"⟩

/-- A JSON value, as far as the test scenarios need: `undefined`, strings,
and objects (association lists of fields). -/
inductive JValue where
  | undef
  | str (s : String)
  | obj (fields : List (String × JValue))

/-- A JSON-RPC message envelope. The bridge never inspects messages; the
fields here are what the echo scenario and the test suite construct. An
absent field is `none`. -/
structure JSONRPCMessage where
  jsonrpc : Option String
  id : Option String
  method : Option String
  params : Option JValue
  result : Option JValue

/-- One synchronous execution of the server's registered message handler:
the messages it sent through the server-facing proxy's `send`, in order,
and the value it threw at the end, if any. -/
structure ServerHandlerRun where
  sent : List JSONRPCMessage
  thrown : Option Thrown

/-- The server-side message handler, registered by `McpServer.connect`
through the proxy's `onmessage` setter. -/
def ServerHandler := JSONRPCMessage → ServerHandlerRun

/-- The client-side message handler (`transport.onmessage`): on a message
it either returns normally (`none`) or throws (`some t`). -/
def ClientHandler := JSONRPCMessage → Option Thrown

/-- Observable handler invocations, in order. -/
inductive Event where
  | serverDelivered (m : JSONRPCMessage)
  | clientDelivered (m : JSONRPCMessage)
  | clientError (e : JsError)
  | closeNotified
  | warning (s : String)

/-- Outcome of a settled promise. -/
inductive Settled where
  | resolved
  | rejected (e : JsError)
deriving DecidableEq, Repr

/-- A callback deferred with `setTimeout(..., 0)`:
`serverDelivery` from `PseudoTransport.send` (lines 152-163), capturing the
server handler and the promise to settle at `send` time;
`clientDelivery` from the proxy's `send` (lines 81-87);
`notifyClose` from `close` (line 132), capturing the close-handler slot
read before the slots were cleared. -/
inductive DeferredTask where
  | serverDelivery (m : JSONRPCMessage) (h : ServerHandler) (pid : Nat)
  | clientDelivery (m : JSONRPCMessage)
  | notifyClose (captured : Option Unit)

/-- The mutable state of one `PseudoTransport` instance, together with the
event queue, the event trace and the settled promises. -/
structure TransportState where
  started : Bool
  isServerConnected : Bool
  clientMessageHandler : Option ClientHandler
  clientErrorHandler : Option Unit
  clientCloseHandler : Option Unit
  serverMessageHandler : Option ServerHandler
  queue : List DeferredTask
  events : List Event
  settled : List (Nat × Settled)
  nextPid : Nat

/-- Result of a call to `PseudoTransport.send`: rejected synchronously, or
pending on promise `pid`. -/
inductive SendResult where
  | rejectedNow (e : JsError)
  | pending (pid : Nat)
deriving DecidableEq, Repr

/-- Result of a call to `PseudoTransport.start`. -/
inductive StartResult where
  | ok
  | threw (e : JsError)
deriving DecidableEq, Repr

def notStartedError : JsError := ⟨"PseudoTransport is not started."⟩

def peerUnavailableError : JsError :=
  ⟨"PseudoTransport: McpServer handler not available or server not connected."⟩

def alreadyStartedError : JsError := ⟨"PseudoTransport already started!"⟩

/-- The `TypeError` raised when the deferred client delivery finds the
handler slot cleared and invokes `undefined` (line 83's non-null
assertion read at delivery time). -/
def undefinedHandlerError : JsError :=
  ⟨"TypeError: self._clientMessageHandler is not a function"⟩

def handlerWarning : String :=
  "[PseudoTransport] McpServer did NOT set a message handler after connect completed. Client requests might fail."

/-- The freshly constructed transport (constructor, lines 28-33): nothing
started, nothing registered, nothing queued. -/
def initial : TransportState :=
  { started := false
    isServerConnected := false
    clientMessageHandler := none
    clientErrorHandler := none
    clientCloseHandler := none
    serverMessageHandler := none
    queue := []
    events := []
    settled := []
    nextPid := 0 }

/-- `set onmessage` (lines 35-37). -/
def setOnmessage (s : TransportState) (h : Option ClientHandler) : TransportState :=
  { s with clientMessageHandler := h }

/-- `set onerror` (lines 42-44). -/
def setOnerror (s : TransportState) (h : Option Unit) : TransportState :=
  { s with clientErrorHandler := h }

/-- `set onclose` (lines 49-51). -/
def setOnclose (s : TransportState) (h : Option Unit) : TransportState :=
  { s with clientCloseHandler := h }

/-- The server-facing proxy's `onmessage` setter (lines 68-75): records
the handler into the bridge's inward slot and sets `_isServerConnected`
to whether the handler is present. -/
def proxySetOnmessage (s : TransportState) (h : Option ServerHandler) : TransportState :=
  { s with serverMessageHandler := h, isServerConnected := h.isSome }

/-- The server-facing proxy's `send` (lines 79-89), direction
responder → requester: if the client message handler is set at call time,
defer a client delivery; the returned promise always resolves (the async
body neither awaits nor throws). -/
def proxySend (s : TransportState) (m : JSONRPCMessage) : TransportState × Settled :=
  (if s.clientMessageHandler.isSome then
    { s with queue := s.queue ++ [.clientDelivery m] }
   else s, .resolved)

/-- The server-facing proxy's `close` (lines 91-93): only marks the server
disconnected. -/
def proxyClose (s : TransportState) : TransportState :=
  { s with isServerConnected := false }

/-- One interaction of the responder's `connect` with the proxy it was
handed: set the proxy's `onmessage`, call the proxy's `send`, `close` or
`start` (a no-op, line 90). -/
inductive ProxyAction where
  | setHandler (h : Option ServerHandler)
  | sendMsg (m : JSONRPCMessage)
  | closeProxy
  | startProxy

def applyProxyAction (s : TransportState) : ProxyAction → TransportState
  | .setHandler h => proxySetOnmessage s h
  | .sendMsg m => (proxySend s m).1
  | .closeProxy => proxyClose s
  | .startProxy => s

/-- One execution of the responder's `connect(transport)` operation: the
proxy interactions it performs, in order, then the value it throws, if
any. -/
structure ConnectRun where
  actions : List ProxyAction
  thrown : Option Thrown

/-- `PseudoTransport.start` (lines 61-114). Rejects `AlreadyStarted` when
started; otherwise runs the responder's connect against a fresh proxy. On
connect failure the normalized error goes to the client error handler (if
set) and is re-thrown, with `_started` left false. On success, if no
server handler was registered the code waits one tick and re-checks; no
modelled action can register in that gap, so the re-check is collapsed
into the single check and the `console.warn` becomes a `warning` event.
Finally `_started` is set. -/
def start (s : TransportState) (connect : ConnectRun) : TransportState × StartResult :=
  if s.started then (s, .threw alreadyStartedError)
  else
    let s1 := connect.actions.foldl applyProxyAction s
    match connect.thrown with
    | some t =>
        let err := connectErrNormalize t
        let s2 := if s1.clientErrorHandler.isSome then
            { s1 with events := s1.events ++ [.clientError err] }
          else s1
        ({ s2 with started := false }, .threw err)
    | none =>
        let s2 := if s1.serverMessageHandler.isNone then
            { s1 with events := s1.events ++ [.warning handlerWarning] }
          else s1
        ({ s2 with started := true }, .ok)

/-- `PseudoTransport.send` (lines 142-164), direction requester →
responder: reject `NotStarted` when not started; reject `PeerUnavailable`
when the server handler is unset or the server is not connected;
otherwise capture the server handler and defer the delivery, returning a
pending promise. -/
def send (s : TransportState) (m : JSONRPCMessage) : TransportState × SendResult :=
  if !s.started then (s, .rejectedNow notStartedError)
  else
    match s.serverMessageHandler with
    | none => (s, .rejectedNow peerUnavailableError)
    | some h =>
        if !s.isServerConnected then (s, .rejectedNow peerUnavailableError)
        else
          ({ s with queue := s.queue ++ [.serverDelivery m h s.nextPid],
                    nextPid := s.nextPid + 1 },
           .pending s.nextPid)

/-- `PseudoTransport.close` (lines 119-135): no-op when not started;
otherwise clear the started and connected flags, capture the close
handler, clear all four handler slots, and defer the close notification
carrying the captured handler. -/
def close (s : TransportState) : TransportState :=
  if !s.started then s
  else
    { s with
      started := false
      isServerConnected := false
      serverMessageHandler := none
      clientMessageHandler := none
      clientErrorHandler := none
      clientCloseHandler := none
      queue := s.queue ++ [.notifyClose s.clientCloseHandler] }

/-- Run one deferred callback against the state current at its run time.
`serverDelivery` (lines 153-162): invoke the captured server handler,
performing its proxy sends in order; on normal return resolve the promise;
on a throw, normalize it, invoke the client error handler (read at run
time) if set, and reject the promise.
`clientDelivery` (lines 81-87): read the client message handler at run
time; invoke it; a throw is normalized and passed to the client error
handler if set; if the slot was cleared in the meantime, invoking
`undefined` raises a `TypeError` handled by the same catch.
`notifyClose` (line 132): invoke the captured close handler if it was
set. -/
def runTask (s : TransportState) : DeferredTask → TransportState
  | .serverDelivery m h pid =>
      let run := h m
      let s1 := { s with events := s.events ++ [.serverDelivered m] }
      let s2 := run.sent.foldl (fun st msg => (proxySend st msg).1) s1
      match run.thrown with
      | none => { s2 with settled := s2.settled ++ [(pid, .resolved)] }
      | some t =>
          let err := normalizeError t
          let s3 := if s2.clientErrorHandler.isSome then
              { s2 with events := s2.events ++ [.clientError err] }
            else s2
          { s3 with settled := s3.settled ++ [(pid, .rejected err)] }
  | .clientDelivery m =>
      match s.clientMessageHandler with
      | some ch =>
          let s1 := { s with events := s.events ++ [.clientDelivered m] }
          match ch m with
          | none => s1
          | some t =>
              let err := normalizeError t
              if s1.clientErrorHandler.isSome then
                { s1 with events := s1.events ++ [.clientError err] }
              else s1
      | none =>
          if s.clientErrorHandler.isSome then
            { s with events := s.events ++ [.clientError undefinedHandlerError] }
          else s
  | .notifyClose captured =>
      match captured with
      | some _ => { s with events := s.events ++ [.closeNotified] }
      | none => s

/-- Dequeue and run the front deferred task, if any (the event queue is
FIFO). -/
def stepQueue (s : TransportState) : TransportState :=
  match s.queue with
  | [] => s
  | t :: rest => runTask { s with queue := rest } t

/-- Run `n` turns of the event queue. -/
def runSteps : Nat → TransportState → TransportState
  | 0, s => s
  | n + 1, s => runSteps n (stepQueue s)

/-- A responder handler that accepts every message and does nothing. -/
def trivialServerHandler : ServerHandler := fun _ => { sent := [], thrown := none }

/-- A connect run that registers `trivialServerHandler` and returns. -/
def registeringConnect : ConnectRun :=
  { actions := [.setHandler (some trivialServerHandler)], thrown := none }

/-- The echo responder of the test suite (pseudo.test.ts lines 12-23): on
a message carrying both `id` and `method`, sends back
`{jsonrpc:"2.0", id, result:{echoed: params}}` through the proxy. -/
def echoHandler : ServerHandler := fun m =>
  if m.id.isSome && m.method.isSome then
    { sent := [{ jsonrpc := some "2.0", id := m.id, method := none, params := none,
                 result := some (.obj [("echoed", m.params.getD .undef)]) }],
      thrown := none }
  else { sent := [], thrown := none }

/-- `{jsonrpc:"2.0", id:"1", method:"echo", params:{foo:"bar"}}`. -/
def sampleRequest : JSONRPCMessage :=
  { jsonrpc := some "2.0", id := some "1", method := some "echo",
    params := some (.obj [("foo", .str "bar")]), result := none }

/-- `{jsonrpc:"2.0", id:"1", result:{echoed:{foo:"bar"}}}`. -/
def sampleResponse : JSONRPCMessage :=
  { jsonrpc := some "2.0", id := some "1", method := none, params := none,
    result := some (.obj [("echoed", .obj [("foo", .str "bar")])]) }

/-- A freshly started bridge with an idle responder, used as the concrete
started instance in witnesses. -/
def startedState : TransportState := (start initial registeringConnect).1

/-! Helper lemmas: the responder's proxy interactions during `connect`
touch only the server-facing slots and the queue, and the proxy sends a
server handler performs touch only the queue. -/

theorem applyProxyAction_frame (s : TransportState) (a : ProxyAction) :
    (applyProxyAction s a).started = s.started
    ∧ (applyProxyAction s a).events = s.events
    ∧ (applyProxyAction s a).clientErrorHandler = s.clientErrorHandler
    ∧ (applyProxyAction s a).clientMessageHandler = s.clientMessageHandler := by
  cases a with
  | setHandler h => exact ⟨rfl, rfl, rfl, rfl⟩
  | sendMsg m =>
      simp only [applyProxyAction, proxySend]
      split <;> exact ⟨rfl, rfl, rfl, rfl⟩
  | closeProxy => exact ⟨rfl, rfl, rfl, rfl⟩
  | startProxy => exact ⟨rfl, rfl, rfl, rfl⟩

theorem applyActions_frame (acts : List ProxyAction) (s : TransportState) :
    (acts.foldl applyProxyAction s).started = s.started
    ∧ (acts.foldl applyProxyAction s).events = s.events
    ∧ (acts.foldl applyProxyAction s).clientErrorHandler = s.clientErrorHandler
    ∧ (acts.foldl applyProxyAction s).clientMessageHandler = s.clientMessageHandler := by
  induction acts generalizing s with
  | nil => exact ⟨rfl, rfl, rfl, rfl⟩
  | cons a l ih =>
      obtain ⟨h1, h2, h3, h4⟩ := applyProxyAction_frame s a
      obtain ⟨g1, g2, g3, g4⟩ := ih (applyProxyAction s a)
      exact ⟨g1.trans h1, g2.trans h2, g3.trans h3, g4.trans h4⟩

theorem proxySendAcc_frame (l : List JSONRPCMessage) (s : TransportState) :
    (l.foldl (fun st msg => (proxySend st msg).1) s).events = s.events
    ∧ (l.foldl (fun st msg => (proxySend st msg).1) s).settled = s.settled
    ∧ (l.foldl (fun st msg => (proxySend st msg).1) s).clientErrorHandler
        = s.clientErrorHandler := by
  induction l generalizing s with
  | nil => exact ⟨rfl, rfl, rfl⟩
  | cons m l ih =>
      have step : ((proxySend s m).1).events = s.events
          ∧ ((proxySend s m).1).settled = s.settled
          ∧ ((proxySend s m).1).clientErrorHandler = s.clientErrorHandler := by
        simp only [proxySend]
        split <;> exact ⟨rfl, rfl, rfl⟩
      obtain ⟨h1, h2, h3⟩ := step
      obtain ⟨g1, g2, g3⟩ := ih ((proxySend s m).1)
      exact ⟨g1.trans h1, g2.trans h2, g3.trans h3⟩

/-- Claim C3: `send(m)` rejects with `NotStarted` when the bridge is not
started, rejects with `PeerUnavailable` when the server handler is unset
or the server is disconnected — in both cases leaving the state (and so
every handler) untouched — and returns a pending promise only when
started, connected, and the server handler is set. -/
theorem send_precondition (s : TransportState) (m : JSONRPCMessage) :
    (s.started = false → send s m = (s, .rejectedNow notStartedError))
    ∧ (s.started = true → (s.serverMessageHandler = none ∨ s.isServerConnected = false) →
        send s m = (s, .rejectedNow peerUnavailableError))
    ∧ (∀ pid, (send s m).2 = .pending pid →
        s.started = true ∧ s.isServerConnected = true
          ∧ s.serverMessageHandler.isSome = true) := by
  refine ⟨?_, ?_, ?_⟩
  · intro hs; simp [send, hs]
  · intro hs hor
    rcases hor with hm | hc
    · simp [send, hs, hm]
    · cases hm : s.serverMessageHandler with
      | none => simp [send, hs, hm]
      | some sh => simp [send, hs, hm, hc]
  · intro pid hp
    by_cases hs : s.started = true
    · cases hm : s.serverMessageHandler with
      | none => simp [send, hs, hm] at hp
      | some sh =>
          by_cases hc : s.isServerConnected = true
          · exact ⟨hs, hc, by simp [hm]⟩
          · simp [send, hs, hm, Bool.eq_false_iff.mpr hc] at hp
    · simp [send, Bool.eq_false_iff.mpr hs] at hp

/-- Witness for C3 at the fresh bridge and the sample request. -/
theorem send_precondition_witness :
    initial.started = false
    ∧ send initial sampleRequest = (initial, .rejectedNow notStartedError) :=
  ⟨rfl, (send_precondition initial sampleRequest).1 rfl⟩

/-- Claim C8: the peer proxy's `close` only marks the server disconnected;
the bridge stays started, all four handler slots, the queue (so no close
notification is scheduled), the trace (so no handler runs), and the
settled promises are untouched. -/
theorem proxy_close_no_cascade (s : TransportState) :
    (proxyClose s).isServerConnected = false
    ∧ (proxyClose s).started = s.started
    ∧ (proxyClose s).clientMessageHandler = s.clientMessageHandler
    ∧ (proxyClose s).clientErrorHandler = s.clientErrorHandler
    ∧ (proxyClose s).clientCloseHandler = s.clientCloseHandler
    ∧ (proxyClose s).serverMessageHandler = s.serverMessageHandler
    ∧ (proxyClose s).queue = s.queue
    ∧ (proxyClose s).events = s.events
    ∧ (proxyClose s).settled = s.settled :=
  ⟨rfl, rfl, rfl, rfl, rfl, rfl, rfl, rfl, rfl⟩

/-- Counterexample to claim C2: a concrete started bridge is closed and
then started again; the second `start` returns `ok` and the bridge is
back in the started state, so `close()` is not terminal. -/
theorem close_terminal_cex :
    (close (start initial registeringConnect).1).started = false
    ∧ (start (close (start initial registeringConnect).1) registeringConnect).2
        = .ok
    ∧ (start (close (start initial registeringConnect).1) registeringConnect).1.started
        = true :=
  ⟨rfl, rfl, rfl⟩

/-- Claim C2 as amended: `close()` on a started bridge returns it to the
unstarted state, but it can be restarted — any subsequent `start` whose
connect run does not throw returns `ok` and marks the bridge started
again. -/
theorem close_then_restart (s : TransportState) (hs : s.started = true)
    (c : ConnectRun) (hc : c.thrown = none) :
    (close s).started = false
    ∧ (start (close s) c).2 = .ok
    ∧ (start (close s) c).1.started = true := by
  have h1 : (close s).started = false := by simp [close, hs]
  refine ⟨h1, ?_, ?_⟩ <;>
    simp only [start, h1, Bool.false_eq_true, if_false, hc]

/-- Witness for the amended C2 at a concrete started bridge. -/
theorem close_then_restart_witness :
    startedState.started = true
    ∧ registeringConnect.thrown = none
    ∧ (start (close startedState) registeringConnect).2 = .ok
    ∧ (start (close startedState) registeringConnect).1.started = true :=
  ⟨rfl, rfl, (close_then_restart startedState rfl registeringConnect rfl).2.1,
    (close_then_restart startedState rfl registeringConnect rfl).2.2⟩

/-- Claim C4: `close()` on a started bridge clears all four handler
slots, while the close notification it defers is still pending at the end
of the queue (carrying the handler captured before the slots were
cleared) — so the notification fires only after the slots are cleared —
and any `send` issued against the post-close state rejects with
`NotStarted` without changing the state. -/
theorem close_teardown (s : TransportState) (hs : s.started = true)
    (m : JSONRPCMessage) :
    (close s).clientMessageHandler = none
    ∧ (close s).clientErrorHandler = none
    ∧ (close s).clientCloseHandler = none
    ∧ (close s).serverMessageHandler = none
    ∧ (close s).queue = s.queue ++ [.notifyClose s.clientCloseHandler]
    ∧ send (close s) m = (close s, .rejectedNow notStartedError) := by
  have hcl : close s =
      { s with
        started := false
        isServerConnected := false
        serverMessageHandler := none
        clientMessageHandler := none
        clientErrorHandler := none
        clientCloseHandler := none
        queue := s.queue ++ [.notifyClose s.clientCloseHandler] } := by
    simp [close, hs]
  refine ⟨by rw [hcl], by rw [hcl], by rw [hcl], by rw [hcl], by rw [hcl], ?_⟩
  rw [hcl]; simp [send]

/-- Witness for C4 at a concrete started bridge and the sample request. -/
theorem close_teardown_witness :
    startedState.started = true
    ∧ (close startedState).clientMessageHandler = none
    ∧ send (close startedState) sampleRequest
        = (close startedState, .rejectedNow notStartedError) :=
  ⟨rfl, (close_teardown startedState rfl sampleRequest).1,
    (close_teardown startedState rfl sampleRequest).2.2.2.2.2⟩

/-- Claim C9: `close()` on a started bridge invokes no handler
synchronously and defers exactly one close notification carrying the
captured handler; a second `close()` is a strict no-op (so the handler is
notified exactly once however many times `close` is called); running the
deferred notification appends exactly one `closeNotified` event when a
handler was registered and nothing otherwise; and `close()` on an
unstarted bridge is a no-op that invokes no handler. -/
theorem close_handler_exactly_once (s : TransportState) (hs : s.started = true) :
    (close s).events = s.events
    ∧ (close s).queue = s.queue ++ [.notifyClose s.clientCloseHandler]
    ∧ close (close s) = close s
    ∧ (∀ st, (runTask st (.notifyClose s.clientCloseHandler)).events
        = st.events
          ++ (if s.clientCloseHandler.isSome then [.closeNotified] else []))
    ∧ (∀ u : TransportState, u.started = false → close u = u) := by
  refine ⟨by simp [close, hs], by simp [close, hs], ?_, ?_, ?_⟩
  · have h1 : (close s).started = false := by simp [close, hs]
    conv_lhs => rw [close, h1]
    simp
  · intro st
    cases hc : s.clientCloseHandler with
    | none => simp [runTask, hc]
    | some u => simp [runTask, hc]
  · intro u hu
    simp [close, hu]

/-- Witness for C9 at a concrete started bridge with a registered close
handler. -/
theorem close_handler_exactly_once_witness :
    (setOnclose startedState (some ())).started = true
    ∧ close (close (setOnclose startedState (some ())))
        = close (setOnclose startedState (some ()))
    ∧ (runTask initial
          (.notifyClose (setOnclose startedState (some ())).clientCloseHandler)).events
        = initial.events
          ++ (if (setOnclose startedState (some ())).clientCloseHandler.isSome
              then [.closeNotified] else []) :=
  ⟨rfl, (close_handler_exactly_once (setOnclose startedState (some ())) rfl).2.2.1,
    (close_handler_exactly_once (setOnclose startedState (some ())) rfl).2.2.2.1 initial⟩

/-- Claim C5: when the responder's connect run throws, `start` re-raises
the normalized error, leaves the bridge unstarted, passes the very same
error to the outward error handler exactly when one is registered, and a
later `send` still rejects with `NotStarted`; for a thrown `Error`
instance the forwarded and re-raised error is that error itself. -/
theorem start_failure_atomicity (s : TransportState) (hs : s.started = false)
    (acts : List ProxyAction) (t : Thrown) (m : JSONRPCMessage) :
    (start s { actions := acts, thrown := some t }).2
        = .threw (connectErrNormalize t)
    ∧ (start s { actions := acts, thrown := some t }).1.started = false
    ∧ (s.clientErrorHandler.isSome →
        (start s { actions := acts, thrown := some t }).1.events
          = s.events ++ [.clientError (connectErrNormalize t)])
    ∧ (s.clientErrorHandler = none →
        (start s { actions := acts, thrown := some t }).1.events = s.events)
    ∧ (send (start s { actions := acts, thrown := some t }).1 m).2
        = .rejectedNow notStartedError
    ∧ (∀ e, t = .errObj e → connectErrNormalize t = e) := by
  obtain ⟨f1, f2, f3, f4⟩ := applyActions_frame acts s
  have hres : start s { actions := acts, thrown := some t }
      = ({ (if (acts.foldl applyProxyAction s).clientErrorHandler.isSome then
              { acts.foldl applyProxyAction s with
                events := (acts.foldl applyProxyAction s).events
                  ++ [.clientError (connectErrNormalize t)] }
            else acts.foldl applyProxyAction s) with started := false },
         .threw (connectErrNormalize t)) := by
    simp [start, hs]
  refine ⟨?_, ?_, ?_, ?_, ?_, ?_⟩
  · rw [hres]
  · rw [hres]
  · intro hce
    rw [hres]
    simp only [f3, hce, if_true, f2]
  · intro hce
    rw [hres]
    simp only [f3, hce, Option.isSome_none, Bool.false_eq_true, if_false, f2]
  · have h2 : (start s { actions := acts, thrown := some t }).1.started = false := by
      rw [hres]
    simp [send, h2]
  · intro e he
    simp [he, connectErrNormalize]

/-- Witness for C5: a fresh bridge whose error handler is set and whose
responder throws the `Error` "boom". -/
theorem start_failure_atomicity_witness :
    (setOnerror initial (some ())).started = false
    ∧ (start (setOnerror initial (some ()))
        { actions := [], thrown := some (.errObj ⟨"boom"⟩) }).2
        = .threw ⟨"boom"⟩
    ∧ (start (setOnerror initial (some ()))
        { actions := [], thrown := some (.errObj ⟨"boom"⟩) }).1.events
        = (setOnerror initial (some ())).events ++ [.clientError ⟨"boom"⟩] :=
  ⟨rfl,
    (start_failure_atomicity (setOnerror initial (some ())) rfl []
      (.errObj ⟨"boom"⟩) sampleRequest).1,
    (start_failure_atomicity (setOnerror initial (some ())) rfl []
      (.errObj ⟨"boom"⟩) sampleRequest).2.2.1 rfl⟩

/-- A client-side message handler that never throws. -/
def quietClientHandler : ClientHandler := fun _ => none

/-- A client-side message handler that always throws the `Error`
"client fail" (pseudo.test.ts line 97). -/
def throwingClientHandler : ClientHandler := fun _ => some (.errObj ⟨"client fail"⟩)

theorem proxySendAcc_events (l : List JSONRPCMessage) (s : TransportState) :
    (List.foldl (fun st msg => (proxySend st msg).1) s l).events = s.events :=
  (proxySendAcc_frame l s).1

theorem proxySendAcc_settled (l : List JSONRPCMessage) (s : TransportState) :
    (List.foldl (fun st msg => (proxySend st msg).1) s l).settled = s.settled :=
  (proxySendAcc_frame l s).2.1

theorem proxySendAcc_errorHandler (l : List JSONRPCMessage) (s : TransportState) :
    (List.foldl (fun st msg => (proxySend st msg).1) s l).clientErrorHandler
      = s.clientErrorHandler :=
  (proxySendAcc_frame l s).2.2

/-- Running a deferred requester→responder delivery settles its promise:
resolved on normal return of the server handler, rejected with the
normalized thrown value otherwise. -/
theorem runTask_serverDelivery_settled (st : TransportState)
    (m : JSONRPCMessage) (h : ServerHandler) (pid : Nat) :
    (runTask st (.serverDelivery m h pid)).settled
      = st.settled
        ++ [(pid, match (h m).thrown with
                  | none => Settled.resolved
                  | some t => .rejected (normalizeError t))] := by
  cases ht : (h m).thrown with
  | none => simp [runTask, ht, proxySendAcc_settled]
  | some t =>
      simp only [runTask, ht]
      split <;> simp [proxySendAcc_settled]

/-- Running a deferred requester→responder delivery records the inward
handler's invocation and, when the handler throws while the outward error
handler is set, the error notification. -/
theorem runTask_serverDelivery_events (st : TransportState)
    (m : JSONRPCMessage) (h : ServerHandler) (pid : Nat) :
    (runTask st (.serverDelivery m h pid)).events
      = st.events ++ [.serverDelivered m]
        ++ (match (h m).thrown, st.clientErrorHandler.isSome with
            | some t, true => [.clientError (normalizeError t)]
            | _, _ => []) := by
  cases ht : (h m).thrown with
  | none => simp [runTask, ht, proxySendAcc_events]
  | some t =>
      cases hce : st.clientErrorHandler with
      | none =>
          simp [runTask, ht, hce, proxySendAcc_events, proxySendAcc_errorHandler]
      | some u =>
          simp [runTask, ht, hce, proxySendAcc_events, proxySendAcc_errorHandler]

/-- Running a deferred responder→requester delivery, when the outward
message handler is still registered, records its invocation and, when it
throws while the outward error handler is set, the error notification. -/
theorem runTask_clientDelivery_events (st : TransportState)
    (m : JSONRPCMessage) (ch : ClientHandler)
    (hch : st.clientMessageHandler = some ch) :
    (runTask st (.clientDelivery m)).events
      = st.events ++ [.clientDelivered m]
        ++ (match ch m, st.clientErrorHandler.isSome with
            | some t, true => [.clientError (normalizeError t)]
            | _, _ => []) := by
  cases ht : ch m with
  | none => simp [runTask, hch, ht]
  | some t =>
      cases hce : st.clientErrorHandler with
      | none => simp [runTask, hch, ht, hce]
      | some u => simp [runTask, hch, ht, hce]

/-- Claim C6: an accepted `send(m)` defers exactly one delivery carrying
`m`, the handler captured at `send` time, and the fresh promise; running
that delivery invokes the inward handler with `m`; on normal return the
promise resolves and no error is reported; on a throw the promise rejects
with the normalized error, which also reaches the outward error handler
exactly when one is registered. -/
theorem send_delivery_outcome (s : TransportState) (m : JSONRPCMessage)
    (h : ServerHandler) (hh : s.serverMessageHandler = some h)
    (hst : s.started = true) (hc : s.isServerConnected = true) :
    (send s m).1.queue = s.queue ++ [.serverDelivery m h s.nextPid]
    ∧ (send s m).2 = .pending s.nextPid
    ∧ (∀ st pid, (h m).thrown = none →
        (runTask st (.serverDelivery m h pid)).settled
          = st.settled ++ [(pid, .resolved)]
        ∧ (runTask st (.serverDelivery m h pid)).events
          = st.events ++ [.serverDelivered m])
    ∧ (∀ st pid t, (h m).thrown = some t →
        (runTask st (.serverDelivery m h pid)).settled
          = st.settled ++ [(pid, .rejected (normalizeError t))]
        ∧ (st.clientErrorHandler.isSome →
            (runTask st (.serverDelivery m h pid)).events
              = st.events ++ [.serverDelivered m, .clientError (normalizeError t)])
        ∧ (st.clientErrorHandler = none →
            (runTask st (.serverDelivery m h pid)).events
              = st.events ++ [.serverDelivered m])) := by
  refine ⟨by simp [send, hst, hh, hc], by simp [send, hst, hh, hc], ?_, ?_⟩
  · intro st pid ht
    constructor
    · rw [runTask_serverDelivery_settled, ht]
    · rw [runTask_serverDelivery_events, ht]; simp
  · intro st pid t ht
    refine ⟨?_, ?_, ?_⟩
    · rw [runTask_serverDelivery_settled, ht]
    · intro hce
      rw [runTask_serverDelivery_events, ht, hce]; simp
    · intro hce
      rw [runTask_serverDelivery_events, ht, hce]; simp

/-- Witness for C6 at a concrete started bridge whose responder handler
returns normally. -/
theorem send_delivery_outcome_witness :
    startedState.serverMessageHandler = some trivialServerHandler
    ∧ startedState.started = true
    ∧ (send startedState sampleRequest).2 = .pending startedState.nextPid
    ∧ (runTask initial (.serverDelivery sampleRequest trivialServerHandler 0)).settled
        = initial.settled ++ [(0, .resolved)] :=
  ⟨rfl, rfl,
    (send_delivery_outcome startedState sampleRequest trivialServerHandler
      rfl rfl rfl).2.1,
    ((send_delivery_outcome startedState sampleRequest trivialServerHandler
      rfl rfl rfl).2.2.1 initial 0 rfl).1⟩

/-- Claim C7: the peer proxy's `send` always resolves — it defers a
client delivery when the outward message handler is set and silently
drops the message otherwise, never rejecting — while a throw of the
outward message handler during that deferred delivery reaches the outward
error handler (when registered). -/
theorem proxy_send_fire_and_forget (s st : TransportState) (m : JSONRPCMessage) :
    (proxySend s m).2 = .resolved
    ∧ (s.clientMessageHandler.isSome →
        (proxySend s m).1 = { s with queue := s.queue ++ [.clientDelivery m] })
    ∧ (s.clientMessageHandler = none → (proxySend s m).1 = s)
    ∧ (∀ ch t, st.clientMessageHandler = some ch → ch m = some t →
        st.clientErrorHandler.isSome →
        (runTask st (.clientDelivery m)).events
          = st.events ++ [.clientDelivered m, .clientError (normalizeError t)]) := by
  refine ⟨rfl, ?_, ?_, ?_⟩
  · intro hcm; simp [proxySend, hcm]
  · intro hcm; simp [proxySend, hcm]
  · intro ch t hch ht hce
    rw [runTask_clientDelivery_events st m ch hch, ht, hce]; simp

/-- Witness for C7 at a concrete state whose outward message handler
throws "client fail" and whose error handler is set. -/
theorem proxy_send_fire_and_forget_witness :
    (proxySend (setOnerror (setOnmessage initial (some throwingClientHandler))
        (some ())) sampleResponse).2 = .resolved
    ∧ (runTask (setOnerror (setOnmessage initial (some throwingClientHandler))
          (some ())) (.clientDelivery sampleResponse)).events
        = (setOnerror (setOnmessage initial (some throwingClientHandler))
            (some ())).events
          ++ [.clientDelivered sampleResponse, .clientError ⟨"client fail"⟩] :=
  ⟨(proxy_send_fire_and_forget
      (setOnerror (setOnmessage initial (some throwingClientHandler)) (some ()))
      initial sampleResponse).1,
    (proxy_send_fire_and_forget initial
      (setOnerror (setOnmessage initial (some throwingClientHandler)) (some ()))
      sampleResponse).2.2.2 throwingClientHandler (.errObj ⟨"client fail"⟩)
      rfl rfl rfl⟩

/-- Claim C10: a thrown `Error` instance is forwarded unchanged while any
other thrown value is wrapped in a fresh `Error` carrying its string
conversion — on the requester→responder path this normalized error both
rejects the send promise and (here shown for the non-`Error` case)
reaches the outward error handler, and on the responder→requester path it
reaches the outward error handler. -/
theorem thrown_value_normalization (st : TransportState) (m : JSONRPCMessage)
    (h : ServerHandler) (ch : ClientHandler) (pid : Nat) :
    (∀ e, normalizeError (.errObj e) = e)
    ∧ (∀ v, normalizeError (.nonError v) = ⟨v⟩)
    ∧ (∀ v, (h m).thrown = some (.nonError v) →
        (runTask st (.serverDelivery m h pid)).settled
          = st.settled ++ [(pid, .rejected ⟨v⟩)])
    ∧ (∀ e, (h m).thrown = some (.errObj e) →
        (runTask st (.serverDelivery m h pid)).settled
          = st.settled ++ [(pid, .rejected e)])
    ∧ (∀ v, st.clientMessageHandler = some ch → ch m = some (.nonError v) →
        st.clientErrorHandler.isSome →
        (runTask st (.clientDelivery m)).events
          = st.events ++ [.clientDelivered m, .clientError ⟨v⟩]) := by
  refine ⟨fun e => rfl, fun v => rfl, ?_, ?_, ?_⟩
  · intro v ht
    rw [runTask_serverDelivery_settled, ht]; simp [normalizeError]
  · intro e ht
    rw [runTask_serverDelivery_settled, ht]; simp [normalizeError]
  · intro v hch ht hce
    rw [runTask_clientDelivery_events st m ch hch, ht, hce]
    simp [normalizeError]

/-- Witness for C10 at a handler throwing the non-`Error` value whose
string conversion is "oops". -/
theorem thrown_value_normalization_witness :
    normalizeError (.nonError "oops") = ⟨"oops"⟩
    ∧ (runTask initial
          (.serverDelivery sampleRequest (fun _ =>
            { sent := [], thrown := some (.nonError "oops") }) 0)).settled
        = initial.settled ++ [(0, .rejected ⟨"oops"⟩)] :=
  ⟨(thrown_value_normalization initial sampleRequest
      (fun _ => { sent := [], thrown := some (.nonError "oops") })
      quietClientHandler 0).2.1 "oops",
    (thrown_value_normalization initial sampleRequest
      (fun _ => { sent := [], thrown := some (.nonError "oops") })
      quietClientHandler 0).2.2.1 "oops" rfl⟩

/-- Claim C1: with the outward message handler registered and a responder
whose connect registers a handler answering `m` by sending the single
response `r` through the proxy, `start` resolves, `send m` returns a
pending promise, and after the two deferred deliveries run the promise
has resolved and the outward handler has received `r`. -/
theorem round_trip_delivery (h : ServerHandler) (ch : ClientHandler)
    (m r : JSONRPCMessage)
    (hresp : h m = { sent := [r], thrown := none }) :
    (start (setOnmessage initial (some ch))
        { actions := [.setHandler (some h)], thrown := none }).2 = .ok
    ∧ (send (start (setOnmessage initial (some ch))
          { actions := [.setHandler (some h)], thrown := none }).1 m).2
        = .pending 0
    ∧ (0, Settled.resolved)
        ∈ (runSteps 2 (send (start (setOnmessage initial (some ch))
            { actions := [.setHandler (some h)], thrown := none }).1 m).1).settled
    ∧ Event.clientDelivered r
        ∈ (runSteps 2 (send (start (setOnmessage initial (some ch))
            { actions := [.setHandler (some h)], thrown := none }).1 m).1).events := by
  have hstep1 :
      stepQueue
          { started := true, isServerConnected := true,
            clientMessageHandler := some ch, clientErrorHandler := none,
            clientCloseHandler := none, serverMessageHandler := some h,
            queue := [.serverDelivery m h 0], events := [], settled := [],
            nextPid := 1 }
        = { started := true, isServerConnected := true,
            clientMessageHandler := some ch, clientErrorHandler := none,
            clientCloseHandler := none, serverMessageHandler := some h,
            queue := [.clientDelivery r], events := [.serverDelivered m],
            settled := [(0, .resolved)], nextPid := 1 } := by
    simp [stepQueue, runTask, hresp, proxySend]
  have hstep2 :
      stepQueue
          { started := true, isServerConnected := true,
            clientMessageHandler := some ch, clientErrorHandler := none,
            clientCloseHandler := none, serverMessageHandler := some h,
            queue := [.clientDelivery r], events := [.serverDelivered m],
            settled := [(0, .resolved)], nextPid := 1 }
        = { started := true, isServerConnected := true,
            clientMessageHandler := some ch, clientErrorHandler := none,
            clientCloseHandler := none, serverMessageHandler := some h,
            queue := [], events := [.serverDelivered m, .clientDelivered r],
            settled := [(0, .resolved)], nextPid := 1 } := by
    cases hcr : ch r with
    | none => simp [stepQueue, runTask, hcr]
    | some t => simp [stepQueue, runTask, hcr]
  have h0 :
      runSteps 2 (send (start (setOnmessage initial (some ch))
          { actions := [.setHandler (some h)], thrown := none }).1 m).1
        = stepQueue (stepQueue
            { started := true, isServerConnected := true,
              clientMessageHandler := some ch, clientErrorHandler := none,
              clientCloseHandler := none, serverMessageHandler := some h,
              queue := [.serverDelivery m h 0], events := [], settled := [],
              nextPid := 1 }) := rfl
  have hfinal :
      runSteps 2 (send (start (setOnmessage initial (some ch))
          { actions := [.setHandler (some h)], thrown := none }).1 m).1
        = { started := true, isServerConnected := true,
            clientMessageHandler := some ch, clientErrorHandler := none,
            clientCloseHandler := none, serverMessageHandler := some h,
            queue := [], events := [.serverDelivered m, .clientDelivered r],
            settled := [(0, .resolved)], nextPid := 1 } := by
    rw [h0, hstep1, hstep2]
  refine ⟨rfl, rfl, ?_, ?_⟩
  · rw [hfinal]; simp
  · rw [hfinal]; simp

/-- Witness for C1: the echo responder answering the sample request with
the sample response. -/
theorem round_trip_delivery_witness :
    echoHandler sampleRequest = { sent := [sampleResponse], thrown := none }
    ∧ Event.clientDelivered sampleResponse
        ∈ (runSteps 2 (send (start (setOnmessage initial (some quietClientHandler))
            { actions := [.setHandler (some echoHandler)], thrown := none }).1
            sampleRequest).1).events :=
  ⟨rfl, (round_trip_delivery echoHandler quietClientHandler sampleRequest
      sampleResponse rfl).2.2.2⟩

end PseudoMCP
